import Mathlib

/-!
Verification of the supervised bash-command execution primitive
(`airflow/operators/bash.py`, `airflow/operators/bash_operator.py` and the
hook they delegate to), embedded shallowly in Lean 4.

Python dictionaries are modelled as insertion-ordered association lists
(`EnvMap`), with `lookup`, `setKey` (one-key assignment keeping the key's
position) and `update` (Python's `dict.update`).  The process supervisor
(`BashHook.run_command` / `BashHook.send_sigterm`) is not part of the
source slice, so it is modelled from the spec where marked; the two
operator variants are translated directly from the source.
-/

/-- A Python dict of environment variables: insertion-ordered key/value list. -/
abbrev EnvMap := List (String × String)

/-- Python `d[k]` / `d.get(k)`: value of the first (unique) binding of `k`. -/
def lookup : EnvMap → String → Option String
  | [], _ => none
  | (k, v) :: rest, key => if k = key then some v else lookup rest key

/-- Python `d[k] = v`: replace the value in place if `k` is present
(keeping its position, as Python dicts do), else append the new binding. -/
def setKey : EnvMap → String → String → EnvMap
  | [], k, v => [(k, v)]
  | (k', v') :: rest, k, v =>
    if k' = k then (k', v) :: rest else (k', v') :: setKey rest k v

/-- Python `base.update(upd)`: assign every binding of `upd` into `base`,
in order. -/
def update (base : EnvMap) (upd : EnvMap) : EnvMap :=
  upd.foldl (fun acc p => setKey acc p.1 p.2) base

theorem lookup_setKey_self (e : EnvMap) (k v : String) :
    lookup (setKey e k v) k = some v := by
  induction e with
  | nil => simp [setKey, lookup]
  | cons hd tl ih =>
    by_cases h : hd.1 = k
    · simp [setKey, h, lookup]
    · simp [setKey, h, lookup, ih]

theorem lookup_setKey_ne (e : EnvMap) (k v k' : String) (h : k ≠ k') :
    lookup (setKey e k v) k' = lookup e k' := by
  induction e with
  | nil => simp [setKey, lookup, h]
  | cons hd tl ih =>
    by_cases hk : hd.1 = k
    · simp [setKey, hk, lookup, h]
    · simp [setKey, hk, lookup, ih]

theorem setKey_of_lookup_eq (e : EnvMap) (k v : String)
    (h : lookup e k = some v) : setKey e k v = e := by
  induction e with
  | nil => simp [lookup] at h
  | cons hd tl ih =>
    by_cases hk : hd.1 = k
    · simp [lookup, hk] at h
      cases hd with
      | mk k1 v1 =>
        simp at hk
        simp [setKey, hk]
        simp [hk] at h
        exact h.symm
    · simp [lookup, hk] at h
      simp [setKey, hk, ih h]

theorem update_nil (e : EnvMap) : update e [] = e := rfl

theorem update_cons (e : EnvMap) (p : String × String) (rest : EnvMap) :
    update e (p :: rest) = update (setKey e p.1 p.2) rest := rfl

/-- Keys absent from `upd` are untouched by `update`. -/
theorem lookup_update_not_mem (e : EnvMap) (upd : EnvMap) (k : String)
    (h : k ∉ upd.map Prod.fst) :
    lookup (update e upd) k = lookup e k := by
  induction upd generalizing e with
  | nil => rfl
  | cons hd tl ih =>
    rw [List.map_cons] at h
    have h1 : hd.1 ≠ k := fun hk => h (hk ▸ List.mem_cons_self _ _)
    have h2 : k ∉ tl.map Prod.fst := fun hk => h (List.mem_cons_of_mem _ hk)
    rw [update_cons, ih _ h2, lookup_setKey_ne _ _ _ _ h1]

/-- Every binding of `upd` (with distinct keys) wins in `update e upd`. -/
theorem lookup_update_mem (e : EnvMap) (upd : EnvMap) (k v : String)
    (hnd : (upd.map Prod.fst).Nodup) (hmem : (k, v) ∈ upd) :
    lookup (update e upd) k = some v := by
  induction upd generalizing e with
  | nil => simp at hmem
  | cons hd tl ih =>
    rw [List.map_cons] at hnd
    have hnotin := (List.nodup_cons.mp hnd).1
    have hndtl := (List.nodup_cons.mp hnd).2
    rcases List.mem_cons.mp hmem with heq | htl
    · rw [update_cons,
        lookup_update_not_mem _ _ _ (by rw [← heq] at hnotin; exact hnotin)]
      rw [← heq]
      exact lookup_setKey_self _ _ _
    · exact update_cons e hd tl ▸ ih _ hndtl htl

/-- If every binding of `upd` is already present in `e` with the same value,
`update` is the identity. -/
theorem update_of_sub (e : EnvMap) (upd : EnvMap)
    (h : ∀ p ∈ upd, lookup e p.1 = some p.2) : update e upd = e := by
  induction upd with
  | nil => rfl
  | cons hd tl ih =>
    rw [update_cons, setKey_of_lookup_eq _ _ _ (h hd (List.mem_cons_self _ _))]
    exact ih (fun p hp => h p (List.mem_cons_of_mem _ hp))

/-! ### Process supervisor (the hook), modelled from the spec -/

/-- Arguments of the `Popen` spawn call made by the supervisor, as asserted
by `tests/hooks/test_bash.py:test_should_exec_subprocess`. -/
structure PopenCall where
  argv : List String
  cwd : String
  env : EnvMap
  stderrToStdout : Bool
  stdoutPiped : Bool
  newSession : Bool
  deriving Repr, DecidableEq

/-- Modelled from the spec: `BashHook.run_command` resolves the environment —
if `env` is omitted the ambient environment is used (a copy; value passing
models the copy), otherwise the explicit `env` is used as-is, never merged
with the ambient one. -/
def resolveEnv (env : Option EnvMap) (ambient : EnvMap) : EnvMap :=
  match env with
  | some e => e
  | none => ambient

/-- Modelled from the spec: the supervisor spawns the command through a shell
invocation `["bash", "-c", command]` with stderr merged into the captured
stdout pipe and the child placed in a new session/process group. -/
def spawnCall (command : String) (venv : EnvMap) (dir : String) : PopenCall :=
  { argv := ["bash", "-c", command], cwd := dir, env := venv,
    stderrToStdout := true, stdoutPiped := true, newSession := true }

/-- The failure outcome `NonZeroExit(code, outputTail)` of the spec's error
taxonomy. -/
structure BashError where
  code : Int
  outputTail : List String
  deriving Repr, DecidableEq

/-- Modelled from the spec: the message of a non-zero-exit failure carries
the exit code and the tail of the captured output. -/
def errorMessage (e : BashError) : String :=
  "Bash command failed. The command returned a non-zero exit code " ++
    (toString e.code ++ (". Output tail: " ++ String.intercalate "\n" e.outputTail))

/-- Abstract behaviour of the spawned shell command: given the environment
visible to the child, the decoded output lines it emits and its exit code. -/
structure CmdBehavior where
  output : EnvMap → List String
  exitCode : EnvMap → Int

/-- Modelled from the spec: `BashHook.run_command`.  A fresh temporary
directory `tmpdir` is the working directory when `cwd` is not supplied; the
command is spawned via `spawnCall` on the resolved environment; output lines
are captured in order; exit code `0` yields the last captured line (empty
string when there was no output) and any other exit code yields a
`BashError` carrying that code and the captured output tail.  The result
pairs the spawn call actually issued with the classified outcome. -/
def run_command (behavior : CmdBehavior) (command : String) (env : Option EnvMap)
    (ambient : EnvMap) (cwd : Option String) (tmpdir : String) :
    PopenCall × Except BashError String :=
  let dir := match cwd with | some d => d | none => tmpdir
  let venv := resolveEnv env ambient
  let call := spawnCall command venv dir
  let lines := behavior.output venv
  let code := behavior.exitCode venv
  let outcome := if code = 0 then Except.ok ((lines.getLast?).getD "")
    else Except.error { code := code, outputTail := lines }
  (call, outcome)

/-! ### Process table and termination -/

/-- A live OS process: its pid and the id of the process group it belongs
to. -/
structure Proc where
  pid : Nat
  pgid : Nat
  deriving Repr, DecidableEq

/-- The subprocess handle held by the supervisor: pid of the direct child
and its process-group id. -/
structure ProcHandle where
  pid : Nat
  pgid : Nat
  deriving Repr, DecidableEq

/-- Modelled from the spec: the child is spawned as a new session/group
leader, so its group id equals its own pid. -/
def spawnedHandle (pid : Nat) : ProcHandle := { pid := pid, pgid := pid }

/-- Modelled from the spec: a process forked by a member of the group
inherits its parent's process group. -/
def forkChild (parent : Proc) (childPid : Nat) : Proc :=
  { pid := childPid, pgid := parent.pgid }

/-- Modelled from the spec: `os.killpg` — the termination signal reaches
every process of the group, and a signalled process is gone from the table
(signal delivery is modelled as immediately effective). -/
def killpg (t : List Proc) (g : Nat) : List Proc :=
  t.filter (fun p => p.pgid ≠ g)

/-- Modelled from the spec: `BashHook.send_sigterm` — when a subprocess
handle is live, signal its whole process group; when none is live, a silent
no-op.  It is a total function: it never raises. -/
def send_sigterm (h : Option ProcHandle) (t : List Proc) : List Proc :=
  match h with
  | none => t
  | some ph => killpg t ph.pgid

/-- Embedded from `airflow/operators/bash.py` lines 140-141: `on_kill`
delegates to the hook's `send_sigterm`. -/
def on_kill (hook_sub_process : Option ProcHandle) (t : List Proc) : List Proc :=
  send_sigterm hook_sub_process t

/-- Embedded from `airflow/operators/bash_operator.py` lines 112-114:
`on_kill` only calls `send_sigterm` when `self.bash_hook` (None before
`execute`) has that attribute. -/
def on_kill_old (bash_hook : Option (Option ProcHandle)) (t : List Proc) :
    List Proc :=
  match bash_hook with
  | none => t
  | some sub => send_sigterm sub t

/-! ### Operator variants, embedded from the source -/

/-- Embedded from `airflow/operators/bash_operator.py` lines 93-102 (the
older variant's `get_env`).  `env = self.env or os.environ.copy()` uses
Python truthiness: a `None` or empty supplied dict falls back to a copy of
the ambient environment; otherwise `env` aliases the supplied dict.  Then
`env.update(airflow_context_vars)` merges the context-derived variables,
overriding same-named keys, and the result is returned.
`context_to_airflow_vars(context)` is outside the slice, so its result is
the parameter `airflow_context_vars`. -/
def get_env (self_env : Option EnvMap) (ambient : EnvMap)
    (airflow_context_vars : EnvMap) : EnvMap :=
  let env := match self_env with
    | some e => if e.isEmpty then ambient else e
    | none => ambient
  update env airflow_context_vars

/-- Content of the caller-supplied env dict after the older variant's
`get_env` ran: because `env` aliases `self.env` when the supplied dict is
non-empty, the in-place `env.update(airflow_context_vars)` is visible
through the caller's reference. -/
def suppliedEnvAfterGetEnv (self_env : Option EnvMap) (_ambient : EnvMap)
    (airflow_context_vars : EnvMap) : Option EnvMap :=
  match self_env with
  | some e => if e.isEmpty then some e else some (update e airflow_context_vars)
  | none => none

/-- Embedded from `airflow/operators/bash.py` lines 132-138: the newer
variant's `execute` passes `self.env` to the hook unchanged, so this is the
`env` argument `run_command` receives. -/
def execute_env_arg (self_env : Option EnvMap) : Option EnvMap :=
  self_env

/-- Fields the newer `BashOperator` (`airflow/operators/bash.py`) stores. -/
structure BashOperator where
  bash_command : String
  env : Option EnvMap
  output_encoding : String
  sub_process : Option ProcHandle
  deriving Repr, DecidableEq

/-- Fields the older `BashOperator` (`airflow/operators/bash_operator.py`)
stores. -/
structure BashOperatorOld where
  bash_command : String
  env : Option EnvMap
  output_encoding : String
  bash_hook : Option (Option ProcHandle)
  lineage_data : String
  deriving Repr, DecidableEq

/-- Embedded from `airflow/operators/bash.py` lines 110-125: `__init__`
stores `bash_command`, `env` and `output_encoding`, sets `sub_process` to
`None`, and raises `AirflowException` when `kwargs.get("xcom_push")` is not
`None`.  `xcom_push` here is the value of that keyword argument: `none` for
absent-or-None, `some b` for any other value (any non-None value raises,
`False` included). -/
def initBashOperator (bash_command : String) (env : Option EnvMap)
    (output_encoding : String) (xcom_push : Option Bool) :
    Except String BashOperator :=
  match xcom_push with
  | some _ =>
    Except.error "xcom_push was deprecated, use BaseOperator.do_xcom_push instead"
  | none =>
    Except.ok { bash_command := bash_command, env := env,
                output_encoding := output_encoding, sub_process := none }

/-- Embedded from `airflow/operators/bash_operator.py` lines 72-91: the
older `__init__` stores the same three fields, sets `bash_hook` to `None`
and `lineage_data` to the command, and raises `AirflowException` on a
non-None `xcom_push` keyword argument. -/
def initBashOperatorOld (bash_command : String) (env : Option EnvMap)
    (output_encoding : String) (xcom_push : Option Bool) :
    Except String BashOperatorOld :=
  match xcom_push with
  | some _ =>
    Except.error "xcom_push was deprecated, use BaseOperator.do_xcom_push instead"
  | none =>
    Except.ok { bash_command := bash_command, env := env,
                output_encoding := output_encoding, bash_hook := none,
                lineage_data := bash_command }

/-! ### Claim theorems -/

/-- C1: `terminate()` (the hook's `send_sigterm`, reached from
`BashOperator.on_kill`) signals the entire process group of the spawned
command: after it runs against a live handle, the direct child (the group
leader), any descendant it forked, and indeed every process of that group
are gone from the process table — not only the direct child. -/
theorem terminate_kills_process_group (t : List Proc) (leaderPid childPid : Nat) :
    (⟨leaderPid, leaderPid⟩ : Proc) ∉
      send_sigterm (some (spawnedHandle leaderPid)) t ∧
    forkChild ⟨leaderPid, leaderPid⟩ childPid ∉
      send_sigterm (some (spawnedHandle leaderPid)) t ∧
    ∀ p ∈ t, p.pgid = (spawnedHandle leaderPid).pgid →
      p ∉ send_sigterm (some (spawnedHandle leaderPid)) t := by
  refine ⟨?_, ?_, ?_⟩
  · simp [send_sigterm, spawnedHandle, killpg, List.mem_filter]
  · simp [send_sigterm, spawnedHandle, killpg, forkChild, List.mem_filter]
  · intro p _ hpg
    simp [send_sigterm, spawnedHandle, killpg, List.mem_filter] at hpg ⊢
    intro _
    exact hpg

/-- C1 witness: in a table holding the spawned leader (pid 5, group 5), its
forked descendant (pid 6, same group) and an unrelated process, the forked
descendant is gone after termination. -/
theorem terminate_kills_process_group_witness :
    (⟨6, 5⟩ : Proc) ∉
      send_sigterm (some (spawnedHandle 5)) [⟨5, 5⟩, ⟨6, 5⟩, ⟨9, 2⟩] :=
  (terminate_kills_process_group [⟨5, 5⟩, ⟨6, 5⟩, ⟨9, 2⟩] 5 6).2.2
    ⟨6, 5⟩ (by decide) (by decide)

/-- C2: with an explicit environment `E` the spawned command runs with
exactly `E`: the spawn call's env is `E` itself, every binding of `E` is
visible with its value, and a key absent from `E` is invisible to the
command even when the ambient environment binds it. -/
theorem explicit_env_replaces_ambient (behavior : CmdBehavior) (command : String)
    (E ambient : EnvMap) (cwd : Option String) (tmpdir : String) :
    (run_command behavior command (some E) ambient cwd tmpdir).1.env = E ∧
    (∀ k v, lookup E k = some v →
      lookup (run_command behavior command (some E) ambient cwd tmpdir).1.env k
        = some v) ∧
    (∀ k, lookup E k = none →
      lookup (run_command behavior command (some E) ambient cwd tmpdir).1.env k
        = none) :=
  ⟨rfl, fun _ _ h => h, fun _ h => h⟩

/-- C2 witness: with env `ABC=123` over an ambient `OS=x`, the supplied
binding is visible and the ambient-only key is not. -/
theorem explicit_env_replaces_ambient_witness :
    lookup (run_command ⟨fun _ => [], fun _ => 0⟩ "echo"
      (some [("ABC", "123")]) [("OS", "x")] none "/tmpdir").1.env "ABC"
      = some "123" ∧
    lookup (run_command ⟨fun _ => [], fun _ => 0⟩ "echo"
      (some [("ABC", "123")]) [("OS", "x")] none "/tmpdir").1.env "OS"
      = none :=
  ⟨(explicit_env_replaces_ambient ⟨fun _ => [], fun _ => 0⟩ "echo"
      [("ABC", "123")] [("OS", "x")] none "/tmpdir").2.1 "ABC" "123" (by decide),
   (explicit_env_replaces_ambient ⟨fun _ => [], fun _ => 0⟩ "echo"
      [("ABC", "123")] [("OS", "x")] none "/tmpdir").2.2 "OS" (by decide)⟩

/-- C3: with `env` omitted (`none`) the spawned command runs with the copy
of the ambient environment: the spawn call's env is the ambient mapping,
and every ambient binding is visible to the command. -/
theorem omitted_env_inherits_ambient (behavior : CmdBehavior) (command : String)
    (ambient : EnvMap) (cwd : Option String) (tmpdir : String) :
    (run_command behavior command none ambient cwd tmpdir).1.env = ambient ∧
    ∀ k v, lookup ambient k = some v →
      lookup (run_command behavior command none ambient cwd tmpdir).1.env k
        = some v :=
  ⟨rfl, fun _ _ h => h⟩

/-- C3 witness: the ambient-only binding `BASH_ENV_TEST` is visible when no
env is supplied. -/
theorem omitted_env_inherits_ambient_witness :
    lookup (run_command ⟨fun _ => [], fun _ => 0⟩ "echo" none
      [("BASH_ENV_TEST", "this-is-from-os-environ")] none "/tmpdir").1.env
      "BASH_ENV_TEST" = some "this-is-from-os-environ" :=
  (omitted_env_inherits_ambient ⟨fun _ => [], fun _ => 0⟩ "echo"
      [("BASH_ENV_TEST", "this-is-from-os-environ")] none "/tmpdir").2
    "BASH_ENV_TEST" "this-is-from-os-environ" (by decide)

/-- C4: a zero exit code yields `Success` with the last captured output
line, and the empty string when the command produced no output. -/
theorem success_returns_last_line (behavior : CmdBehavior) (command : String)
    (env : Option EnvMap) (ambient : EnvMap) (cwd : Option String)
    (tmpdir : String)
    (h : behavior.exitCode (resolveEnv env ambient) = 0) :
    (run_command behavior command env ambient cwd tmpdir).2 =
      Except.ok (((behavior.output (resolveEnv env ambient)).getLast?).getD "") ∧
    (behavior.output (resolveEnv env ambient) = [] →
      (run_command behavior command env ambient cwd tmpdir).2 = Except.ok "") := by
  constructor
  · simp [run_command, h]
  · intro hout
    simp [run_command, h, hout]

/-- C4 witness: a command that writes `stdout` and exits 0 returns exactly
the string `stdout`, and one with no output returns the empty string. -/
theorem success_returns_last_line_witness :
    (run_command ⟨fun _ => ["stdout"], fun _ => 0⟩ "echo stdout" none []
      none "/tmpdir").2 = Except.ok "stdout" ∧
    (run_command ⟨fun _ => [], fun _ => 0⟩ "true" none []
      none "/tmpdir").2 = Except.ok "" := by
  constructor
  · have h := (success_returns_last_line ⟨fun _ => ["stdout"], fun _ => 0⟩
      "echo stdout" none [] none "/tmpdir" rfl).1
    simpa using h
  · exact (success_returns_last_line ⟨fun _ => [], fun _ => 0⟩
      "true" none [] none "/tmpdir" rfl).2 rfl

/-- C5: a non-zero exit code yields a failure error whose `code` field is
that exit code, whose `outputTail` is the captured output, and whose
message carries both the exit code and the rendered output tail. -/
theorem nonzero_exit_raises (behavior : CmdBehavior) (command : String)
    (env : Option EnvMap) (ambient : EnvMap) (cwd : Option String)
    (tmpdir : String)
    (h : behavior.exitCode (resolveEnv env ambient) ≠ 0) :
    ∃ e : BashError,
      (run_command behavior command env ambient cwd tmpdir).2 = Except.error e ∧
      e.code = behavior.exitCode (resolveEnv env ambient) ∧
      e.outputTail = behavior.output (resolveEnv env ambient) ∧
      ∃ s mid, errorMessage e =
        s ++ (toString e.code ++ (mid ++ String.intercalate "\n" e.outputTail)) := by
  refine ⟨{ code := behavior.exitCode (resolveEnv env ambient),
            outputTail := behavior.output (resolveEnv env ambient) }, ?_, rfl, rfl,
          "Bash command failed. The command returned a non-zero exit code ",
          ". Output tail: ", rfl⟩
  simp [run_command, h]

/-- C5 witness: a command exiting with code 42 raises a failure whose code
field equals 42. -/
theorem nonzero_exit_raises_witness :
    ∃ e : BashError,
      (run_command ⟨fun _ => [], fun _ => 42⟩ "exit 42" none [] none
        "/tmpdir").2 = Except.error e ∧
      e.code = 42 := by
  obtain ⟨e, he, hcode, -, -⟩ := nonzero_exit_raises ⟨fun _ => [], fun _ => 42⟩
    "exit 42" none [] none "/tmpdir" (by decide)
  exact ⟨e, he, hcode⟩

/-- C6: with no `cwd` supplied, the subprocess is spawned exactly as
`["bash", "-c", command]` with stderr merged into the captured stdout
stream, in a new session, and with the fresh temporary directory as its
current directory. -/
theorem spawn_call_shape (behavior : CmdBehavior) (command : String)
    (env : Option EnvMap) (ambient : EnvMap) (tmpdir : String) :
    (run_command behavior command env ambient none tmpdir).1 =
      { argv := ["bash", "-c", command], cwd := tmpdir,
        env := resolveEnv env ambient, stderrToStdout := true,
        stdoutPiped := true, newSession := true } := rfl

/-- C7 counterexample: the older variant's `get_env` aliases the supplied
env dict and `update`s it in place, so after `execute` the caller-supplied
mapping `a=b` has gained the context variable `AIRFLOW_CTX_DAG_ID=d` — it
is not unchanged. -/
theorem get_env_mutates_supplied_env :
    suppliedEnvAfterGetEnv (some [("a", "b")]) [] [("AIRFLOW_CTX_DAG_ID", "d")]
      ≠ some [("a", "b")] := by decide

/-- C7 amended: the newer variant's `execute` forwards the supplied env
unchanged to the hook (which, taking it by value, never mutates it), but
the older variant's `get_env` updates the supplied dict in place with the
context variables, so after the older `execute` the supplied mapping equals
its original content updated with those variables — unchanged only when
each of them was already bound with the same value. -/
theorem env_readonly_amended (e ambient cv : EnvMap) (he : e ≠ []) :
    execute_env_arg (some e) = some e ∧
    suppliedEnvAfterGetEnv (some e) ambient cv = some (update e cv) ∧
    ((∀ p ∈ cv, lookup e p.1 = some p.2) →
      suppliedEnvAfterGetEnv (some e) ambient cv = some e) := by
  match e, he with
  | hd :: tl, _ =>
    refine ⟨rfl, rfl, fun h => ?_⟩
    simp [suppliedEnvAfterGetEnv, update_of_sub _ _ h]

/-- C7 amended witness: a supplied env already holding the single context
variable with the same value is left unchanged by the older `get_env`. -/
theorem env_readonly_amended_witness :
    suppliedEnvAfterGetEnv (some [("a", "b")]) [] [("a", "b")]
      = some [("a", "b")] :=
  (env_readonly_amended [("a", "b")] [] [("a", "b")] (by decide)).2.2 (by decide)

/-- C8: `terminate()` with no live invocation — no hook yet, or a handle
slot already cleared — returns normally (it is a total function, so it
never raises), leaves the process table untouched, and hence has no effect
on anything a subsequent invocation observes. -/
theorem terminate_inactive_noop (t : List Proc) :
    send_sigterm none t = t ∧
    on_kill none t = t ∧
    on_kill_old none t = t ∧
    on_kill_old (some none) t = t ∧
    (∀ h2 : Option ProcHandle,
      send_sigterm h2 (on_kill none t) = send_sigterm h2 t) :=
  ⟨rfl, rfl, rfl, rfl, fun _ => rfl⟩

/-- C9 counterexample: when the supplied env already binds the only context
variable with the identical value, the older `get_env` returns exactly the
supplied env even though context variables exist — refuting the claim's
"never runs with exactly the supplied env when context variables exist". -/
theorem get_env_equals_supplied_env_example :
    get_env (some [("AIRFLOW_CTX_DAG_ID", "x")]) []
        [("AIRFLOW_CTX_DAG_ID", "x")]
      = [("AIRFLOW_CTX_DAG_ID", "x")] ∧
    ([("AIRFLOW_CTX_DAG_ID", "x")] : EnvMap) ≠ [] := by decide

/-- C9 amended: the older `get_env` returns a mapping in which every
context-derived variable is bound to its context value, overriding
same-named keys of the supplied env (or of the ambient copy when env is
None or empty); consequently the command runs with something other than
the supplied env whenever some context variable is absent from it or bound
there to a different value. -/
theorem get_env_overrides (env : Option EnvMap) (ambient cv : EnvMap)
    (hnd : (cv.map Prod.fst).Nodup) :
    (∀ p ∈ cv, lookup (get_env env ambient cv) p.1 = some p.2) ∧
    (∀ e, env = some e → e ≠ [] →
      (∃ p ∈ cv, lookup e p.1 ≠ some p.2) →
      ∃ k, lookup (get_env env ambient cv) k ≠ lookup e k) := by
  have hbase : ∀ base : EnvMap, ∀ p ∈ cv,
      lookup (update base cv) p.1 = some p.2 := by
    rintro base ⟨k, v⟩ hp
    exact lookup_update_mem base cv k v hnd hp
  constructor
  · intro p hp
    cases env with
    | none => exact hbase ambient p hp
    | some e =>
      cases e with
      | nil => exact hbase ambient p hp
      | cons hd tl => exact hbase (hd :: tl) p hp
  · intro e henv hne hex
    obtain ⟨⟨k, v⟩, hp, hlk⟩ := hex
    subst henv
    have hsome : get_env (some e) ambient cv = update e cv := by
      cases e with
      | nil => exact absurd rfl hne
      | cons hd tl => rfl
    refine ⟨k, ?_⟩
    rw [hsome, lookup_update_mem e cv k v hnd hp]
    exact fun hc => hlk hc.symm

/-- C9 amended witness: with supplied env `a=b` and context variable
`AIRFLOW_CTX_DAG_ID=d`, the environment the command runs with differs from
the supplied env at some key. -/
theorem get_env_overrides_witness :
    ∃ k, lookup (get_env (some [("a", "b")]) []
      [("AIRFLOW_CTX_DAG_ID", "d")]) k ≠ lookup [("a", "b")] k :=
  (get_env_overrides (some [("a", "b")]) [] [("AIRFLOW_CTX_DAG_ID", "d")]
      (by decide)).2 [("a", "b")] rfl (by decide)
    ⟨("AIRFLOW_CTX_DAG_ID", "d"), by decide, by decide⟩

/-- C10: constructing either variant with a non-None `xcom_push` keyword
argument raises `AirflowException`; with it absent (or None), construction
succeeds and stores `bash_command`, `env` and `output_encoding` unchanged
on the instance. -/
theorem init_xcom_push_check (bash_command : String) (env : Option EnvMap)
    (output_encoding : String) (xcom_push : Option Bool) :
    (xcom_push ≠ none →
      (∃ msg, initBashOperator bash_command env output_encoding xcom_push
        = Except.error msg) ∧
      (∃ msg, initBashOperatorOld bash_command env output_encoding xcom_push
        = Except.error msg)) ∧
    (xcom_push = none →
      initBashOperator bash_command env output_encoding xcom_push =
        Except.ok { bash_command := bash_command, env := env,
                    output_encoding := output_encoding, sub_process := none } ∧
      initBashOperatorOld bash_command env output_encoding xcom_push =
        Except.ok { bash_command := bash_command, env := env,
                    output_encoding := output_encoding, bash_hook := none,
                    lineage_data := bash_command }) := by
  cases xcom_push with
  | none => exact ⟨fun h => absurd rfl h, fun _ => ⟨rfl, rfl⟩⟩
  | some b => exact ⟨fun _ => ⟨⟨_, rfl⟩, ⟨_, rfl⟩⟩, fun h => Option.noConfusion h⟩

/-- C10 witness: `xcom_push=False` (non-None) is rejected, and without
`xcom_push` the newer variant stores its three arguments unchanged. -/
theorem init_xcom_push_check_witness :
    (∃ msg, initBashOperator "echo hi" none "utf-8" (some false)
      = Except.error msg) ∧
    initBashOperator "echo hi" none "utf-8" none =
      Except.ok { bash_command := "echo hi", env := none,
                  output_encoding := "utf-8", sub_process := none } :=
  ⟨((init_xcom_push_check "echo hi" none "utf-8" (some false)).1
      (by decide)).1,
   ((init_xcom_push_check "echo hi" none "utf-8" none).2 rfl).1⟩
